import Mathlib

/-!
Verification of the LiteSATA specification against the repository sources.

The repository fragment under version control here contains the two board
benches (bench/genesys2.py and bench/kcu105.py); those are embedded directly.
The protocol-stack units (scrambler/CRC, crossbar arbitration, command-layer
tag handling, error propagation) belong to the same repository but their
sources are not part of the fragment, so they are modelled from the
specification text, as indicated on each definition.
-/

/- ### Scrambler (spec §4.2) -/

/-- Modelled from the spec: the Scrambler/CRC unit's shared linear-feedback
generator (litesata/core/link scrambler source is not in the repository
fragment).  One step of a 16-bit linear-feedback shift register: the state is
shifted left by one and the feedback bit, a XOR of taps, enters at the bottom. -/
def scrambler_next (s : Nat) : Nat :=
  let fb := (s.testBit 15).xor ((s.testBit 14).xor ((s.testBit 12).xor (s.testBit 3)))
  ((s <<< 1) % 2 ^ 16) + (if fb then 1 else 0)

/-- Modelled from the spec: the scrambler "produces one pseudo-random word per
payload word"; the keystream of pseudo-random words obtained by stepping the
generator from a seed. -/
def keystream : Nat → Nat → List Nat
  | _, 0 => []
  | s, n + 1 => s :: keystream (scrambler_next s) n

/-- Modelled from the spec: scrambling XORs each payload word with the
corresponding keystream word, the generator having been "reset to a fixed seed
at each frame start". -/
def scramble (seed : Nat) (P : List Nat) : List Nat :=
  List.zipWith (fun k w => k ^^^ w) (keystream seed P.length) P

/- ### CRC (spec §4.2) -/

/-- The standard CRC-32 generator polynomial (low 32 bits). -/
def crcPoly : Nat := 0x04C11DB7

/-- Modelled from the spec: the 32-bit CRC initial value used by SATA. -/
def crcInit : Nat := 0x52325032

/-- Modelled from the spec: one bit of the "standard 32-bit CRC" — shift the
accumulator left and fold in the generator polynomial when the outgoing top bit
differs from the incoming message bit. -/
def crcStep (s : Nat) (b : Bool) : Nat :=
  ((s <<< 1) % 2 ^ 32) ^^^ (if (s.testBit 31).xor b then crcPoly else 0)

/-- CRC accumulation over a list of message bits. -/
def crcBits (s : Nat) (bs : List Bool) : Nat := bs.foldl crcStep s

/-- The 32 bits of a payload word, most significant first. -/
def wordBits (w : Nat) : List Bool := (List.range 32).reverse.map (fun i => w.testBit i)

/-- CRC accumulation of one payload word into the accumulator. -/
def crcWord (s w : Nat) : Nat := crcBits s (wordBits w)

/-- Modelled from the spec: the CRC is "accumulated word-by-word over the
payload". -/
def crcWords (s : Nat) (ws : List Nat) : Nat := ws.foldl crcWord s

/-- The 32-bit CRC of a payload, starting from the fixed initial value. -/
def crc32 (P : List Nat) : Nat := crcWords crcInit P

/-- GOOD/BAD frame status reported by the receive side. -/
inductive FrameStatus
  | good
  | bad
deriving DecidableEq

/-- Modelled from the spec: transmit appends the CRC "after the last payload
word". -/
def sendFrame (P : List Nat) : List Nat := P ++ [crc32 P]

/-- Modelled from the spec: receive recomputes the CRC over the payload words
and checks it against the received trailing word "before declaring the frame
valid". -/
def checkFrame (F : List Nat) : FrameStatus :=
  match F.getLast? with
  | none => FrameStatus.bad
  | some c => if crc32 F.dropLast = c then FrameStatus.good else FrameStatus.bad

/-- Flip bit b of payload word i. -/
def flipPayloadBit (P : List Nat) (i b : Nat) : List Nat :=
  P.set i ((P.getD i 0) ^^^ 2 ^ b)

/- ### Crossbar round-robin arbitration (spec §4.6) -/

/-- Modelled from the spec: the Crossbar's baseline arbitration policy,
"round-robin across ports with pending work" — starting from the port after the
last grant, the first requesting port (scanning cyclically) is granted. -/
def rrGrant (N last : Nat) (req : Nat → Bool) : Option Nat :=
  (((List.range N).map (fun d => (last + 1 + d) % N)).find? req)

/-- The request pattern in which every port continuously requests. -/
def allReq : Nat → Bool := fun _ => true

/-- The sequence of grants produced by repeatedly running the round-robin
arbiter from a start port under a fixed request pattern. -/
def grantSeq (N start : Nat) (req : Nat → Bool) : Nat → Nat
  | 0 => start
  | k + 1 =>
    match rrGrant N (grantSeq N start req k) req with
    | some g => g
    | none => grantSeq N start req k

/- ### Command-layer Set Device Bits fan-out (spec §4.5) -/

/-- Modelled from the spec: on a Set Device Bits completion FIS carrying a
bitmask of completed tags, the Command Layer "must fan out that completion to
every matching outstanding command, not just the first".  Returns the completed
tags and the tags still outstanding. -/
def sdbComplete (outstanding : List Nat) (mask : Nat) : List Nat × List Nat :=
  (outstanding.filter (fun t => mask.testBit t),
   outstanding.filter (fun t => ! mask.testBit t))

/- ### Error propagation model (spec §7) -/

/-- Lifecycle status of an outstanding command. -/
inductive CmdStatus
  | pending
  | completed
  | aborted
  | errored
  | timedout
deriving DecidableEq

/-- An outstanding command: its tag and its status. -/
structure Cmd where
  tag : Nat
  status : CmdStatus
deriving DecidableEq

/-- The stack-wide command state: per-port outstanding commands, plus the
Crossbar's pending-tag table. -/
structure StackState where
  ports : List (List Cmd)
  pendingTags : List Nat
deriving DecidableEq

/-- The error kinds enumerated by the spec's error-handling design. -/
inductive ErrKind
  | symbolDecodeError
  | crcMismatch
  | frameProtocolError
  | fisTypeUnrecognized
  | commandTimeout
  | commandError
  | tagMismatch
  | linkNotReady
deriving DecidableEq

/-- A command whose status is pending becomes aborted; others are unchanged. -/
def abortIfPending (c : Cmd) : Cmd :=
  if c.status = CmdStatus.pending then { c with status := CmdStatus.aborted } else c

/-- Set the status of command i in a port's outstanding list. -/
def setStatus : List Cmd → Nat → CmdStatus → List Cmd
  | [], _, _ => []
  | c :: cs, 0, st => { c with status := st } :: cs
  | c :: cs, i + 1, st => c :: setStatus cs i st

/-- Set the status of command i of port p. -/
def updatePorts : List (List Cmd) → Nat → Nat → CmdStatus → List (List Cmd)
  | [], _, _, _ => []
  | cmds :: rest, 0, i, st => setStatus cmds i st :: rest
  | cmds :: rest, p + 1, i, st => cmds :: updatePorts rest p i st

/-- Modelled from the spec: §7's propagation policy.  LinkNotReady "is the only
condition that is global and aborts every outstanding command across every
port" and empties the Crossbar's pending-tag table; CommandTimeout and
CommandError "are terminal for that command but do not affect other outstanding
commands" (they change only the focused command, at port focusPort, index
focusCmd); the framing/CRC/FIS/tag errors "abort only the current frame" and
change no command state. -/
def applyError (e : ErrKind) (focusPort focusCmd : Nat) (s : StackState) : StackState :=
  match e with
  | ErrKind.linkNotReady =>
      { ports := s.ports.map (fun cmds => cmds.map abortIfPending),
        pendingTags := [] }
  | ErrKind.commandTimeout =>
      { s with ports := updatePorts s.ports focusPort focusCmd CmdStatus.timedout }
  | ErrKind.commandError =>
      { s with ports := updatePorts s.ports focusPort focusCmd CmdStatus.errored }
  | _ => s

/-- A placeholder command returned by out-of-range lookups. -/
def defaultCmd : Cmd := { tag := 0, status := CmdStatus.completed }

/-- Command i of port p (the placeholder when out of range). -/
def getCmd (s : StackState) (p i : Nat) : Cmd :=
  (s.ports.getD p []).getD i defaultCmd

/- ### Bench embedding (src/bench/genesys2.py and src/bench/kcu105.py) -/

/-- Configuration handed to LiteSATAPHY by the benches. -/
structure LiteSATAPHYCfg where
  refclk : Option String
  pads : String
  gen : String
  clk_freq : Nat
  data_width : Nat
deriving DecidableEq, Inhabited

/-- LiteSATACore is constructed on the PHY. -/
structure CoreModel where
  phy : LiteSATAPHYCfg
deriving DecidableEq, Inhabited

/-- LiteSATACrossbar is constructed on the core. -/
structure CrossbarModel where
  core : CoreModel
deriving DecidableEq, Inhabited

/-- LiteSATABIST is constructed on the crossbar. -/
structure BISTModel where
  crossbar : CrossbarModel
  with_csr : Bool
deriving DecidableEq, Inhabited

/-- A platform timing constraint: a clock period constraint (in nanoseconds)
or a false-path declaration between two clocks. -/
inductive XdcConstraint
  | period (clk : String) (period_ns : Rat)
  | falsePath (src dst : String)
deriving DecidableEq

/-- The configuration a bench SATATestSoC fixes at construction. -/
structure SATATestSoCModel where
  ident : String
  sys_clk_freq : Nat
  pll_clkouts : List (String × Nat)
  sata_phy : LiteSATAPHYCfg
  sata_core : CoreModel
  sata_crossbar : CrossbarModel
  sata_bist : BISTModel
  constraints : List XdcConstraint
deriving DecidableEq, Inhabited

/-- The assertion failures a bench constructor can raise before building. -/
inductive BenchError
  | badConnector
  | badGen
deriving DecidableEq

/-- src/bench lookup table: sata_clk_freq = 75e6 / 150e6 / 300e6 Hz for
gen1 / gen2 / gen3 (genesys2.py line 51, kcu105.py line 84). -/
def sata_clk_freq (gen : String) : Rat :=
  if gen = "gen1" then 75000000 else if gen = "gen2" then 150000000 else 300000000

/-- src/bench/genesys2.py SATATestSoC.__init__: asserts the gen enumeration,
builds PHY → core → crossbar → BIST, and adds the timing constraints. -/
def genesys2_SATATestSoC (sys_clk_freq : Nat) (gen : String) :
    Except BenchError SATATestSoCModel :=
  if gen ∈ ["gen1", "gen2", "gen3"] then
    let phy : LiteSATAPHYCfg :=
      { refclk := none, pads := "fmc2sata", gen := gen,
        clk_freq := sys_clk_freq, data_width := 16 }
    let core : CoreModel := { phy := phy }
    let xbar : CrossbarModel := { core := core }
    let bist : BISTModel := { crossbar := xbar, with_csr := true }
    Except.ok
      { ident := "LiteSATA bench on Genesys2",
        sys_clk_freq := sys_clk_freq,
        pll_clkouts := [("sys", sys_clk_freq)],
        sata_phy := phy,
        sata_core := core,
        sata_crossbar := xbar,
        sata_bist := bist,
        constraints :=
          [ XdcConstraint.period "sata_tx" (1000000000 / sata_clk_freq gen),
            XdcConstraint.period "sata_rx" (1000000000 / sata_clk_freq gen),
            XdcConstraint.falsePath "sys" "sata_tx",
            XdcConstraint.falsePath "sys" "sata_rx",
            XdcConstraint.falsePath "sata_tx" "sata_rx" ] }
  else Except.error BenchError.badGen

/-- src/bench/kcu105.py SATATestSoC.__init__: asserts the connector, then the
gen enumeration; for a non-fmc connector it creates a dedicated 150 MHz
sata_refclk PLL output and passes it to the PHY, otherwise the PHY gets
refclk = None; then builds PHY → core → crossbar → BIST and the constraints. -/
def kcu105_SATATestSoC (sys_clk_freq : Nat) (connector gen : String) :
    Except BenchError SATATestSoCModel :=
  if connector ∈ ["fmc", "sfp", "pcie"] then
    if gen ∈ ["gen1", "gen2", "gen3"] then
      let sata_refclk : Option String :=
        if connector = "fmc" then none else some "sata_refclk"
      let phy : LiteSATAPHYCfg :=
        { refclk := sata_refclk, pads := connector ++ "2sata", gen := gen,
          clk_freq := sys_clk_freq, data_width := 16 }
      let core : CoreModel := { phy := phy }
      let xbar : CrossbarModel := { core := core }
      let bist : BISTModel := { crossbar := xbar, with_csr := true }
      Except.ok
        { ident := "LiteSATA bench on KCU105",
          sys_clk_freq := sys_clk_freq,
          pll_clkouts :=
            ("sys", sys_clk_freq) ::
              (if connector = "fmc" then [] else [("sata_refclk", 150000000)]),
          sata_phy := phy,
          sata_core := core,
          sata_crossbar := xbar,
          sata_bist := bist,
          constraints :=
            [ XdcConstraint.period "sata_tx" (1000000000 / sata_clk_freq gen),
              XdcConstraint.period "sata_rx" (1000000000 / sata_clk_freq gen),
              XdcConstraint.falsePath "sys" "sata_tx",
              XdcConstraint.falsePath "sys" "sata_rx",
              XdcConstraint.falsePath "sata_tx" "sata_rx" ] }
    else Except.error BenchError.badGen
  else Except.error BenchError.badConnector

/-- The gen parameter default of genesys2.py's constructor (line 49). -/
def genesys2_default_gen : String := "gen3"

/-- The gen parameter default of kcu105.py's constructor (line 79). -/
def kcu105_default_gen : String := "gen2"

/-- genesys2.py main(): the --gen option (argparse default "3") is prefixed
with "gen" and passed to the constructor. -/
def genesys2_main_gen (genArg : Option String) : String := "gen" ++ genArg.getD "3"

/-- kcu105.py main(): the --gen option (argparse default "3") is prefixed with
"gen" and passed to the constructor. -/
def kcu105_main_gen (genArg : Option String) : String := "gen" ++ genArg.getD "3"

/-- genesys2.py main(): builds the SoC with the default sys_clk_freq
(int(200e6)) and the command-line gen. -/
def genesys2_main (genArg : Option String) : Except BenchError SATATestSoCModel :=
  genesys2_SATATestSoC 200000000 (genesys2_main_gen genArg)

/-- kcu105.py main(): builds the SoC with the default sys_clk_freq
(int(187.5e6)), the command-line connector (argparse default "fmc") and the
command-line gen. -/
def kcu105_main (genArg connectorArg : Option String) :
    Except BenchError SATATestSoCModel :=
  kcu105_SATATestSoC 187500000 (connectorArg.getD "fmc") (kcu105_main_gen genArg)

/-- A concrete Genesys2 bench SoC, used to instantiate theorems. -/
def genesys2_example : SATATestSoCModel :=
  (genesys2_SATATestSoC 200000000 "gen1").toOption.getD default

/-- A concrete KCU105 bench SoC, used to instantiate theorems. -/
def kcu105_example : SATATestSoCModel :=
  (kcu105_SATATestSoC 200000000 "fmc" "gen1").toOption.getD default

/-- A concrete two-port state with outstanding tags 1 and 2, both pending
(spec §8's link-reset scenario). -/
def linkResetScenario : StackState :=
  { ports := [[{ tag := 1, status := CmdStatus.pending }],
              [{ tag := 2, status := CmdStatus.pending }]],
    pendingTags := [1, 2] }

/- ### Helper lemmas: scrambler -/

theorem keystream_length (s n : Nat) : (keystream s n).length = n := by
  induction n generalizing s with
  | zero => rfl
  | succ n ih => simp [keystream, ih]

theorem scramble_length (seed : Nat) (P : List Nat) :
    (scramble seed P).length = P.length := by
  simp [scramble, keystream_length]

theorem scramble_cons (seed x : Nat) (xs : List Nat) :
    scramble seed (x :: xs) = (seed ^^^ x) :: scramble (scrambler_next seed) xs := by
  simp [scramble, keystream]

/-- Claim C1: applying the scrambler twice with the same seed sequence is the
identity on every payload — the scrambler XOR sequence is self-inverting, the
generator being reset to the same seed at each frame start. -/
theorem scramble_self_inverting (seed : Nat) (P : List Nat) :
    scramble seed (scramble seed P) = P := by
  induction P generalizing seed with
  | nil => rfl
  | cons x xs ih =>
      rw [scramble_cons, scramble_cons, ih]
      rw [← Nat.xor_assoc, Nat.xor_self, Nat.zero_xor]

/- ### Helper lemmas: round-robin arbitration -/

theorem rrGrant_allReq (N last : Nat) (hN : 0 < N) :
    rrGrant N last allReq = some ((last + 1) % N) := by
  cases N with
  | zero => omega
  | succ m =>
      simp [rrGrant, allReq, List.range_succ_eq_map, List.find?]

theorem grantSeq_allReq (N start : Nat) (hN : 0 < N) (k : Nat) :
    grantSeq N start allReq (k + 1) = (start + (k + 1)) % N := by
  induction k with
  | zero => simp [grantSeq, rrGrant_allReq N start hN]
  | succ k ih =>
      show (match rrGrant N (grantSeq N start allReq (k + 1)) allReq with
            | some g => g
            | none => grantSeq N start allReq (k + 1)) = _
      rw [rrGrant_allReq N _ hN, ih]
      simp [Nat.mod_add_mod, Nat.add_assoc]

/-- Claim C3: under the Crossbar's round-robin arbitration with all N ports
continuously requesting, every port p is granted within the next N grants after
any time t, so no port is skipped more than N-1 consecutive grants (no
starvation). -/
theorem rr_no_starvation (N start p t : Nat) (hN : 0 < N) (hp : p < N) :
    ∃ k, k < N ∧ grantSeq N start allReq (t + 1 + k) = p := by
  set a := (start + (t + 1)) % N with ha
  have haN : a < N := Nat.mod_lt _ hN
  refine ⟨(p + N - a) % N, Nat.mod_lt _ hN, ?_⟩
  have h1 : t + 1 + (p + N - a) % N = (t + (p + N - a) % N) + 1 := by omega
  rw [h1, grantSeq_allReq N start hN]
  have h2 : start + (t + (p + N - a) % N + 1) = (start + (t + 1)) + (p + N - a) % N := by
    omega
  rw [h2, ← Nat.mod_add_mod, ← ha, Nat.add_mod_mod]
  have h3 : a + (p + N - a) = p + N := by omega
  rw [h3, Nat.add_mod_right, Nat.mod_eq_of_lt hp]

/-- Witness for C3 at N = 3, start = 0, p = 2, t = 5. -/
theorem rr_no_starvation_witness :
    ∃ k, k < 3 ∧ grantSeq 3 0 allReq (5 + 1 + k) = 2 :=
  rr_no_starvation 3 0 2 5 (by decide) (by decide)

/- ### Claim C4 -/

/-- Claim C4: a Set Device Bits completion mask completes exactly the
outstanding commands whose tags are in the mask and leaves exactly those whose
tags are not in the mask outstanding; in particular with outstanding tags
3, 7, 12 and a mask covering 3 and 7, exactly 3 and 7 complete and 12 remains. -/
theorem sdb_tag_fanout (outstanding : List Nat) (mask t : Nat) :
    (t ∈ (sdbComplete outstanding mask).1 ↔ t ∈ outstanding ∧ mask.testBit t = true) ∧
    (t ∈ (sdbComplete outstanding mask).2 ↔ t ∈ outstanding ∧ mask.testBit t = false) ∧
    sdbComplete [3, 7, 12] (2 ^ 3 + 2 ^ 7) = ([3, 7], [12]) := by
  refine ⟨?_, ?_, by decide⟩ <;> simp [sdbComplete, List.mem_filter]

/- ### Claims about the bench sources (C6 - C10) -/

/-- Claim C6: the link generation speed is a fixed enumeration of exactly three
supported line rates and, with the symbol data width, is fixed at construction
time: a bench SATATestSoC construction fails its assertion iff gen is not one
of gen1, gen2, gen3, and on success the initialization-time configuration
records that gen together with data_width = 16. -/
theorem gen_enumeration_fixed (f : Nat) (gen connector : String)
    (hc : connector ∈ ["fmc", "sfp", "pcie"]) :
    ((genesys2_SATATestSoC f gen).isOk = true ↔ gen ∈ ["gen1", "gen2", "gen3"]) ∧
    ((kcu105_SATATestSoC f connector gen).isOk = true ↔ gen ∈ ["gen1", "gen2", "gen3"]) ∧
    (∀ soc, genesys2_SATATestSoC f gen = Except.ok soc →
       soc.sata_phy.gen = gen ∧ soc.sata_phy.data_width = 16) ∧
    (∀ soc, kcu105_SATATestSoC f connector gen = Except.ok soc →
       soc.sata_phy.gen = gen ∧ soc.sata_phy.data_width = 16) := by
  refine ⟨?_, ?_, ?_, ?_⟩
  · by_cases hg : gen ∈ ["gen1", "gen2", "gen3"] <;>
      simp [genesys2_SATATestSoC, hg, Except.isOk, Except.toBool]
  · by_cases hg : gen ∈ ["gen1", "gen2", "gen3"] <;>
      simp [kcu105_SATATestSoC, hc, hg, Except.isOk, Except.toBool]
  · intro soc h
    by_cases hg : gen ∈ ["gen1", "gen2", "gen3"] <;>
      simp [genesys2_SATATestSoC, hg] at h
    subst h
    exact ⟨rfl, rfl⟩
  · intro soc h
    by_cases hg : gen ∈ ["gen1", "gen2", "gen3"] <;>
      simp [kcu105_SATATestSoC, hc, hg] at h
    subst h
    exact ⟨rfl, rfl⟩

/-- Witness for C6 at f = 200000000, gen = "gen2", connector = "fmc". -/
theorem gen_enumeration_fixed_witness :
    ((genesys2_SATATestSoC 200000000 "gen2").isOk = true ↔
       "gen2" ∈ ["gen1", "gen2", "gen3"]) ∧
    ((kcu105_SATATestSoC 200000000 "fmc" "gen2").isOk = true ↔
       "gen2" ∈ ["gen1", "gen2", "gen3"]) ∧
    (∀ soc, genesys2_SATATestSoC 200000000 "gen2" = Except.ok soc →
       soc.sata_phy.gen = "gen2" ∧ soc.sata_phy.data_width = 16) ∧
    (∀ soc, kcu105_SATATestSoC 200000000 "fmc" "gen2" = Except.ok soc →
       soc.sata_phy.gen = "gen2" ∧ soc.sata_phy.data_width = 16) :=
  gen_enumeration_fixed 200000000 "gen2" "fmc" (by decide)

/-- Claim C7: the stack is composed in layering order: the core is constructed
on the PHY, the Crossbar on the core, and the BIST traffic generator is
attached as a consumer of the Crossbar's client interface only. -/
theorem stack_layering (f : Nat) (gen connector : String)
    (socA socB : SATATestSoCModel)
    (h1 : genesys2_SATATestSoC f gen = Except.ok socA)
    (h2 : kcu105_SATATestSoC f connector gen = Except.ok socB) :
    (socA.sata_core.phy = socA.sata_phy ∧
     socA.sata_crossbar.core = socA.sata_core ∧
     socA.sata_bist.crossbar = socA.sata_crossbar) ∧
    (socB.sata_core.phy = socB.sata_phy ∧
     socB.sata_crossbar.core = socB.sata_core ∧
     socB.sata_bist.crossbar = socB.sata_crossbar) := by
  constructor
  · by_cases hg : gen ∈ ["gen1", "gen2", "gen3"] <;>
      simp [genesys2_SATATestSoC, hg] at h1
    subst h1
    exact ⟨rfl, rfl, rfl⟩
  · by_cases hcon : connector ∈ ["fmc", "sfp", "pcie"] <;>
      by_cases hg : gen ∈ ["gen1", "gen2", "gen3"] <;>
        simp [kcu105_SATATestSoC, hcon, hg] at h2
    subst h2
    exact ⟨rfl, rfl, rfl⟩

/-- Witness for C7 on the concrete example SoCs. -/
theorem stack_layering_witness :
    (genesys2_example.sata_core.phy = genesys2_example.sata_phy ∧
     genesys2_example.sata_crossbar.core = genesys2_example.sata_core ∧
     genesys2_example.sata_bist.crossbar = genesys2_example.sata_crossbar) ∧
    (kcu105_example.sata_core.phy = kcu105_example.sata_phy ∧
     kcu105_example.sata_crossbar.core = kcu105_example.sata_core ∧
     kcu105_example.sata_bist.crossbar = kcu105_example.sata_crossbar) :=
  stack_layering 200000000 "gen1" "fmc" genesys2_example kcu105_example
    (by rfl) (by rfl)

/-- Claim C8: for every supported gen, the benches derive the SATA line clock
frequency as 75 MHz, 150 MHz or 300 MHz, apply a period constraint of 1e9 over
that frequency nanoseconds to both the sata_tx and sata_rx clock domains, and
declare the paths between the sys clock and the two SATA clocks as false paths. -/
theorem sata_clk_constraints (f : Nat) (gen connector : String)
    (hg : gen ∈ ["gen1", "gen2", "gen3"])
    (hc : connector ∈ ["fmc", "sfp", "pcie"]) :
    (sata_clk_freq "gen1" = 75000000 ∧ sata_clk_freq "gen2" = 150000000 ∧
     sata_clk_freq "gen3" = 300000000) ∧
    (∀ soc, genesys2_SATATestSoC f gen = Except.ok soc →
       (XdcConstraint.period "sata_tx" (1000000000 / sata_clk_freq gen) ∈ soc.constraints ∧
        XdcConstraint.period "sata_rx" (1000000000 / sata_clk_freq gen) ∈ soc.constraints ∧
        XdcConstraint.falsePath "sys" "sata_tx" ∈ soc.constraints ∧
        XdcConstraint.falsePath "sys" "sata_rx" ∈ soc.constraints)) ∧
    (∀ soc, kcu105_SATATestSoC f connector gen = Except.ok soc →
       (XdcConstraint.period "sata_tx" (1000000000 / sata_clk_freq gen) ∈ soc.constraints ∧
        XdcConstraint.period "sata_rx" (1000000000 / sata_clk_freq gen) ∈ soc.constraints ∧
        XdcConstraint.falsePath "sys" "sata_tx" ∈ soc.constraints ∧
        XdcConstraint.falsePath "sys" "sata_rx" ∈ soc.constraints)) := by
  refine ⟨⟨by simp [sata_clk_freq], by simp [sata_clk_freq],
           by simp [sata_clk_freq]⟩, ?_, ?_⟩
  · intro soc h
    simp [genesys2_SATATestSoC, hg] at h
    subst h
    simp
  · intro soc h
    simp [kcu105_SATATestSoC, hc, hg] at h
    subst h
    simp

/-- Witness for C8 at f = 200000000, gen = "gen1", connector = "fmc". -/
theorem sata_clk_constraints_witness :
    (sata_clk_freq "gen1" = 75000000 ∧ sata_clk_freq "gen2" = 150000000 ∧
     sata_clk_freq "gen3" = 300000000) ∧
    (∀ soc, genesys2_SATATestSoC 200000000 "gen1" = Except.ok soc →
       (XdcConstraint.period "sata_tx" (1000000000 / sata_clk_freq "gen1") ∈ soc.constraints ∧
        XdcConstraint.period "sata_rx" (1000000000 / sata_clk_freq "gen1") ∈ soc.constraints ∧
        XdcConstraint.falsePath "sys" "sata_tx" ∈ soc.constraints ∧
        XdcConstraint.falsePath "sys" "sata_rx" ∈ soc.constraints)) ∧
    (∀ soc, kcu105_SATATestSoC 200000000 "fmc" "gen1" = Except.ok soc →
       (XdcConstraint.period "sata_tx" (1000000000 / sata_clk_freq "gen1") ∈ soc.constraints ∧
        XdcConstraint.period "sata_rx" (1000000000 / sata_clk_freq "gen1") ∈ soc.constraints ∧
        XdcConstraint.falsePath "sys" "sata_tx" ∈ soc.constraints ∧
        XdcConstraint.falsePath "sys" "sata_rx" ∈ soc.constraints)) :=
  sata_clk_constraints 200000000 "gen1" "fmc" (by decide) (by decide)

/-- Claim C9: the KCU105 bench accepts only the connectors fmc, sfp, pcie —
anything else fails the connector assertion (before the gen assertion or any
module construction) — and it creates a dedicated 150 MHz sata_refclk PLL
output and passes it to the PHY exactly when the connector is not fmc; for fmc
the PHY is constructed with refclk = none. -/
theorem kcu105_connector_policy (f : Nat) (gen connector : String) :
    (connector ∉ ["fmc", "sfp", "pcie"] →
       kcu105_SATATestSoC f connector gen = Except.error BenchError.badConnector) ∧
    (∀ soc, kcu105_SATATestSoC f connector gen = Except.ok soc →
       ((soc.sata_phy.refclk = none) ↔ connector = "fmc") ∧
       (connector ≠ "fmc" →
          soc.sata_phy.refclk = some "sata_refclk" ∧
          ("sata_refclk", 150000000) ∈ soc.pll_clkouts)) := by
  constructor
  · intro h
    simp [kcu105_SATATestSoC, h]
  · intro soc h
    by_cases hcon : connector ∈ ["fmc", "sfp", "pcie"] <;>
      by_cases hg : gen ∈ ["gen1", "gen2", "gen3"] <;>
        simp [kcu105_SATATestSoC, hcon, hg] at h
    subst h
    by_cases hf : connector = "fmc" <;> simp [hf]

/-- Witness for C9: an unsupported connector is rejected, and the fmc example
SoC has no PLL-generated SATA reference clock. -/
theorem kcu105_connector_policy_witness :
    kcu105_SATATestSoC 200000000 "usb" "gen2" = Except.error BenchError.badConnector ∧
    (kcu105_example.sata_phy.refclk = none ↔ "fmc" = "fmc") :=
  ⟨(kcu105_connector_policy 200000000 "gen2" "usb").1 (by decide),
   ((kcu105_connector_policy 200000000 "gen1" "fmc").2 kcu105_example (by rfl)).1⟩

/-- Claim C10: running either bench main() without a gen argument builds a
gen3 SoC: the command-line default "3" is prefixed with "gen" and passed to the
constructor, overriding the constructor parameter defaults (gen3 for Genesys2,
gen2 for KCU105), so the constructor default gen is never used via main(). -/
theorem main_default_gen3 :
    genesys2_main_gen none = "gen3" ∧
    kcu105_main_gen none = "gen3" ∧
    genesys2_default_gen = "gen3" ∧
    kcu105_default_gen = "gen2" ∧
    kcu105_main_gen none ≠ kcu105_default_gen ∧
    (∀ a : Option String, genesys2_main a =
       genesys2_SATATestSoC 200000000 ("gen" ++ a.getD "3")) ∧
    (∀ a c : Option String, kcu105_main a c =
       kcu105_SATATestSoC 187500000 (c.getD "fmc") ("gen" ++ a.getD "3")) ∧
    (genesys2_main none).map (fun soc => soc.sata_phy.gen) = Except.ok "gen3" ∧
    (kcu105_main none none).map (fun soc => soc.sata_phy.gen) = Except.ok "gen3" :=
  ⟨rfl, rfl, rfl, rfl, by decide, fun _ => rfl, fun _ _ => rfl, by rfl, by rfl⟩

/- ### Helper lemmas: error propagation -/

theorem getD_map_fix {α : Type} (f : α → α) (l : List α) (n : Nat) (d : α)
    (h : f d = d) : (l.map f).getD n d = f (l.getD n d) := by
  simp only [List.getD_eq_getElem?_getD, List.getElem?_map]
  cases hx : l[n]? <;> simp [h]

theorem getCmd_linkNotReady (s : StackState) (fp fc p i : Nat) :
    getCmd (applyError ErrKind.linkNotReady fp fc s) p i =
      abortIfPending (getCmd s p i) := by
  show ((s.ports.map (fun cmds => cmds.map abortIfPending)).getD p []).getD i defaultCmd
      = abortIfPending ((s.ports.getD p []).getD i defaultCmd)
  rw [getD_map_fix (fun cmds => cmds.map abortIfPending) s.ports p [] rfl]
  exact getD_map_fix abortIfPending _ i defaultCmd (by rfl)

theorem setStatus_getD (cmds : List Cmd) (fc i : Nat) (st : CmdStatus)
    (h : i ≠ fc) :
    (setStatus cmds fc st).getD i defaultCmd = cmds.getD i defaultCmd := by
  induction cmds generalizing fc i with
  | nil => simp [setStatus]
  | cons c cs ih =>
      cases fc with
      | zero =>
          cases i with
          | zero => exact absurd rfl h
          | succ j => simp [setStatus]
      | succ g =>
          cases i with
          | zero => simp [setStatus]
          | succ j =>
              simp only [setStatus, List.getD_cons_succ]
              exact ih g j (fun hh => h (by rw [hh]))

theorem updatePorts_getD (ports : List (List Cmd)) (fp fc p i : Nat)
    (st : CmdStatus) (h : ¬(p = fp ∧ i = fc)) :
    ((updatePorts ports fp fc st).getD p []).getD i defaultCmd =
      (ports.getD p []).getD i defaultCmd := by
  induction ports generalizing fp p with
  | nil => simp [updatePorts]
  | cons cmds rest ih =>
      cases fp with
      | zero =>
          cases p with
          | zero =>
              have hi : i ≠ fc := fun hh => h ⟨rfl, hh⟩
              simp only [updatePorts, List.getD_cons_zero]
              exact setStatus_getD cmds fc i st hi
          | succ q => simp [updatePorts]
      | succ g =>
          cases p with
          | zero => simp [updatePorts]
          | succ q =>
              simp only [updatePorts, List.getD_cons_succ]
              exact ih g q (fun hq => h ⟨by rw [hq.1], hq.2⟩)

/-- Claim C5: LinkNotReady is the only global error condition: it aborts every
outstanding command across every port (every pending command becomes aborted)
and empties the Crossbar's pending-tag table, while every other error kind
leaves the pending-tag table unchanged and changes no command other than the
currently focused one. -/
theorem linkNotReady_only_global (s : StackState) (fp fc p i : Nat)
    (e : ErrKind) (he : e ≠ ErrKind.linkNotReady)
    (hfocus : ¬(p = fp ∧ i = fc)) :
    (applyError ErrKind.linkNotReady fp fc s).pendingTags = [] ∧
    getCmd (applyError ErrKind.linkNotReady fp fc s) p i =
      abortIfPending (getCmd s p i) ∧
    (applyError e fp fc s).pendingTags = s.pendingTags ∧
    getCmd (applyError e fp fc s) p i = getCmd s p i := by
  refine ⟨rfl, getCmd_linkNotReady s fp fc p i, ?_, ?_⟩
  · cases e <;> first | rfl | exact absurd rfl he
  · cases e <;>
      first
        | rfl
        | exact absurd rfl he
        | exact updatePorts_getD s.ports fp fc p i _ hfocus

/-- Witness for C5 on the spec's link-reset scenario (tags 1 and 2 pending on
two ports) with a CRCMismatch as the contrasting local error. -/
theorem linkNotReady_only_global_witness :
    (applyError ErrKind.linkNotReady 0 0 linkResetScenario).pendingTags = [] ∧
    getCmd (applyError ErrKind.linkNotReady 0 0 linkResetScenario) 1 0 =
      abortIfPending (getCmd linkResetScenario 1 0) ∧
    (applyError ErrKind.crcMismatch 0 0 linkResetScenario).pendingTags =
      linkResetScenario.pendingTags ∧
    getCmd (applyError ErrKind.crcMismatch 0 0 linkResetScenario) 1 0 =
      getCmd linkResetScenario 1 0 :=
  linkNotReady_only_global linkResetScenario 0 0 1 0 ErrKind.crcMismatch
    (by decide) (by decide)

/- ### Helper lemmas: CRC -/

theorem crcStep_lt (s : Nat) (b : Bool) : crcStep s b < 2 ^ 32 := by
  have h1 : (s <<< 1) % 2 ^ 32 < 2 ^ 32 := Nat.mod_lt _ (by norm_num)
  have h2 : (if (s.testBit 31).xor b then crcPoly else 0) < 2 ^ 32 := by
    split <;> decide
  exact Nat.xor_lt_two_pow h1 h2

theorem testBit31_false_lt (s : Nat) (hlt : s < 2 ^ 32)
    (h : s.testBit 31 = false) : s < 2 ^ 31 := by
  rw [Nat.testBit_to_div_mod] at h
  have h2 : ¬ (s / 2 ^ 31 % 2 = 1) := by simpa using h
  have e31 : (2:Nat) ^ 31 = 2147483648 := by norm_num
  have e32 : (2:Nat) ^ 32 = 4294967296 := by norm_num
  rw [e31] at h2 ⊢
  rw [e32] at hlt
  omega

theorem crcStep_false_ne_zero (s : Nat) (hs : s ≠ 0) (hlt : s < 2 ^ 32) :
    crcStep s false ≠ 0 := by
  unfold crcStep
  cases h31 : s.testBit 31 with
  | true =>
      simp only [h31, Bool.true_xor, Bool.not_false, if_true]
      intro h0
      have hb := congrArg (fun x => Nat.testBit x 0) h0
      simp [Nat.testBit_xor, Nat.testBit_mod_two_pow, Nat.testBit_shiftLeft,
        crcPoly] at hb
      rw [Nat.shiftLeft_eq, pow_one] at hb
      omega
  | false =>
      simp only [h31, Bool.false_xor]
      rw [if_neg (by simp)]
      have hl : s < 2 ^ 31 := testBit31_false_lt s hlt h31
      have h2 : s <<< 1 = s * 2 := by rw [Nat.shiftLeft_eq, pow_one]
      have hb : s * 2 < 2 ^ 32 := by
        have e31 : (2:Nat) ^ 31 = 2147483648 := by norm_num
        have e32 : (2:Nat) ^ 32 = 4294967296 := by norm_num
        rw [e31] at hl
        rw [e32]
        omega
      rw [Nat.xor_zero, h2, Nat.mod_eq_of_lt hb]
      omega

theorem shiftLeft_mod_xor (s t : Nat) :
    (((s ^^^ t) <<< 1) % 2 ^ 32) =
      ((s <<< 1) % 2 ^ 32) ^^^ ((t <<< 1) % 2 ^ 32) := by
  apply Nat.eq_of_testBit_eq
  intro i
  simp only [Nat.testBit_mod_two_pow, Nat.testBit_xor, Nat.testBit_shiftLeft,
    Bool.and_xor_distrib_left]

theorem if_xor_poly (x y : Bool) :
    (if x.xor y then crcPoly else 0) =
      (if x then crcPoly else 0) ^^^ (if y then crcPoly else 0) := by
  cases x <;> cases y <;> simp [Nat.xor_self]

theorem xor_rearrange (a b c d : Nat) :
    (a ^^^ b) ^^^ (c ^^^ d) = (a ^^^ c) ^^^ (b ^^^ d) := by
  apply Nat.eq_of_testBit_eq
  intro i
  simp only [Nat.testBit_xor]
  generalize a.testBit i = w
  generalize b.testBit i = x
  generalize c.testBit i = y
  generalize d.testBit i = z
  cases w <;> cases x <;> cases y <;> cases z <;> rfl

theorem crcStep_xor (s t : Nat) (b c : Bool) :
    crcStep (s ^^^ t) (b.xor c) = crcStep s b ^^^ crcStep t c := by
  have hbool : ∀ (p q u v : Bool),
      (p.xor q).xor (u.xor v) = (p.xor u).xor (q.xor v) := by decide
  unfold crcStep
  rw [shiftLeft_mod_xor, Nat.testBit_xor, hbool, if_xor_poly, xor_rearrange]

theorem crcBits_xor (bs : List Bool) :
    ∀ cs : List Bool, bs.length = cs.length → ∀ s t,
      crcBits (s ^^^ t) (List.zipWith (fun x y => x.xor y) bs cs) =
        crcBits s bs ^^^ crcBits t cs := by
  induction bs with
  | nil =>
      intro cs h s t
      cases cs with
      | nil => rfl
      | cons c cs => simp at h
  | cons b bs ih =>
      intro cs h s t
      cases cs with
      | nil => simp at h
      | cons c cs =>
          show crcBits (crcStep (s ^^^ t) (b.xor c))
              (List.zipWith (fun x y => x.xor y) bs cs) = _
          rw [crcStep_xor]
          exact ih cs (by simpa using h) _ _

theorem wordBits_length (w : Nat) : (wordBits w).length = 32 := by
  simp [wordBits]

theorem wordBits_xor (w v : Nat) :
    wordBits (w ^^^ v) =
      List.zipWith (fun x y => x.xor y) (wordBits w) (wordBits v) := by
  unfold wordBits
  rw [List.zipWith_map, List.zipWith_same]
  simp [Nat.testBit_xor]

theorem crcWord_xor (s t w v : Nat) :
    crcWord (s ^^^ t) (w ^^^ v) = crcWord s w ^^^ crcWord t v := by
  unfold crcWord
  rw [wordBits_xor]
  exact crcBits_xor (wordBits w) (wordBits v)
    (by simp [wordBits_length]) s t

theorem crcWords_xor (ws : List Nat) :
    ∀ es : List Nat, ws.length = es.length → ∀ s t,
      crcWords (s ^^^ t) (List.zipWith (fun a b => a ^^^ b) ws es) =
        crcWords s ws ^^^ crcWords t es := by
  induction ws with
  | nil =>
      intro es h s t
      cases es with
      | nil => rfl
      | cons e es => simp at h
  | cons w ws ih =>
      intro es h s t
      cases es with
      | nil => simp at h
      | cons e es =>
          show crcWords (crcWord (s ^^^ t) (w ^^^ e))
              (List.zipWith (fun a b => a ^^^ b) ws es) = _
          rw [crcWord_xor]
          exact ih es (by simpa using h) _ _

theorem crcBits_falses (k : Nat) : crcBits 0 (List.replicate k false) = 0 := by
  induction k with
  | zero => rfl
  | succ k ih =>
      show crcBits (crcStep 0 false) (List.replicate k false) = 0
      rw [show crcStep 0 false = 0 from by decide]
      exact ih

theorem crcWords_zeros (k : Nat) : crcWords 0 (List.replicate k 0) = 0 := by
  induction k with
  | zero => rfl
  | succ k ih =>
      show crcWords (crcWord 0 0) (List.replicate k 0) = 0
      rw [show crcWord 0 0 = 0 from by decide]
      exact ih

theorem crcBits_falses_ne_zero (k : Nat) :
    ∀ s, s ≠ 0 → s < 2 ^ 32 →
      crcBits s (List.replicate k false) ≠ 0 ∧
      crcBits s (List.replicate k false) < 2 ^ 32 := by
  induction k with
  | zero => intro s hs hlt; exact ⟨hs, hlt⟩
  | succ k ih =>
      intro s hs hlt
      show crcBits (crcStep s false) (List.replicate k false) ≠ 0 ∧ _
      exact ih (crcStep s false) (crcStep_false_ne_zero s hs hlt) (crcStep_lt s false)

theorem wordBits_zero : wordBits 0 = List.replicate 32 false := by decide

theorem crcWords_zeros_ne_zero (k : Nat) :
    ∀ s, s ≠ 0 → s < 2 ^ 32 → crcWords s (List.replicate k 0) ≠ 0 := by
  induction k with
  | zero => intro s hs _; exact hs
  | succ k ih =>
      intro s hs hlt
      have hw : crcWord s 0 = crcBits s (List.replicate 32 false) := by
        unfold crcWord
        rw [wordBits_zero]
      have h1 := crcBits_falses_ne_zero 32 s hs hlt
      rw [← hw] at h1
      show crcWords (crcWord s 0) (List.replicate k 0) ≠ 0
      exact ih (crcWord s 0) h1.1 h1.2

theorem wordBits_two_pow (b : Nat) (hb : b < 32) :
    wordBits (2 ^ b) =
      List.replicate (31 - b) false ++ true :: List.replicate b false := by
  interval_cases b <;> decide

theorem crcWord_err_ne_zero (b : Nat) (hb : b < 32) :
    crcWord 0 (2 ^ b) ≠ 0 ∧ crcWord 0 (2 ^ b) < 2 ^ 32 := by
  have h1 : crcWord 0 (2 ^ b) = crcBits crcPoly (List.replicate b false) := by
    unfold crcWord
    rw [wordBits_two_pow b hb]
    show (List.replicate (31 - b) false ++
        true :: List.replicate b false).foldl crcStep 0 = _
    rw [List.foldl_append]
    rw [show (List.replicate (31 - b) false).foldl crcStep 0 = 0 from
      crcBits_falses (31 - b)]
    show List.foldl crcStep (crcStep 0 true) (List.replicate b false) = _
    rw [show crcStep 0 true = crcPoly from by decide]
    rfl
  rw [h1]
  exact crcBits_falses_ne_zero b crcPoly (by decide) (by decide)

theorem crcWords_err_ne_zero (i k b : Nat) (hb : b < 32) :
    crcWords 0 (List.replicate i 0 ++ 2 ^ b :: List.replicate k 0) ≠ 0 := by
  show (List.replicate i 0 ++ 2 ^ b :: List.replicate k 0).foldl crcWord 0 ≠ 0
  rw [List.foldl_append]
  rw [show (List.replicate i 0).foldl crcWord 0 = 0 from crcWords_zeros i]
  show crcWords (crcWord 0 (2 ^ b)) (List.replicate k 0) ≠ 0
  have h := crcWord_err_ne_zero b hb
  exact crcWords_zeros_ne_zero k _ h.1 h.2

theorem zipWith_xor_zeros (P : List Nat) :
    List.zipWith (fun a b => a ^^^ b) P (List.replicate P.length 0) = P := by
  induction P with
  | nil => rfl
  | cons x xs ih => simp [ih, List.replicate_succ]

theorem set_eq_zipWith_err (P : List Nat) :
    ∀ i, i < P.length → ∀ e,
      P.set i ((P.getD i 0) ^^^ e) =
        List.zipWith (fun a b => a ^^^ b) P
          (List.replicate i 0 ++ e :: List.replicate (P.length - 1 - i) 0) := by
  induction P with
  | nil => intro i hi; exact absurd hi (by simp)
  | cons x xs ih =>
      intro i hi e
      cases i with
      | zero =>
          simp only [List.replicate, List.nil_append, List.set_cons_zero,
            List.getD_cons_zero, List.zipWith_cons_cons, List.length_cons,
            Nat.add_sub_cancel, Nat.sub_zero]
          rw [zipWith_xor_zeros xs]
      | succ j =>
          have hj : j < xs.length := by simpa using hi
          simp only [List.replicate_succ, List.cons_append,
            List.set_cons_succ, List.getD_cons_succ, List.zipWith_cons_cons,
            Nat.xor_zero, List.length_cons, Nat.succ_sub_one]
          rw [ih j hj e]
          have harith : xs.length - 1 - j = xs.length - (j + 1) := by omega
          rw [harith]

theorem crc32_flip_ne (P : List Nat) (i b : Nat)
    (hi : i < P.length) (hb : b < 32) :
    crc32 (flipPayloadBit P i b) ≠ crc32 P := by
  have hset := set_eq_zipWith_err P i hi (2 ^ b)
  have hlen : P.length =
      (List.replicate i 0 ++ 2 ^ b :: List.replicate (P.length - 1 - i) 0).length := by
    simp [List.length_append, List.length_replicate]
    omega
  have hlin := crcWords_xor P _ hlen crcInit 0
  rw [Nat.xor_zero] at hlin
  have hflip : crc32 (flipPayloadBit P i b) =
      crc32 P ^^^ crcWords 0
        (List.replicate i 0 ++ 2 ^ b :: List.replicate (P.length - 1 - i) 0) := by
    unfold crc32 flipPayloadBit
    rw [hset]
    exact hlin
  rw [hflip]
  intro hcontra
  have hD := crcWords_err_ne_zero i (P.length - 1 - i) b hb
  apply hD
  calc crcWords 0 (List.replicate i 0 ++ 2 ^ b :: List.replicate (P.length - 1 - i) 0)
      = (crc32 P ^^^ crc32 P) ^^^
          crcWords 0 (List.replicate i 0 ++ 2 ^ b :: List.replicate (P.length - 1 - i) 0) := by
        rw [Nat.xor_self, Nat.zero_xor]
    _ = crc32 P ^^^ (crc32 P ^^^
          crcWords 0 (List.replicate i 0 ++ 2 ^ b :: List.replicate (P.length - 1 - i) 0)) := by
        rw [Nat.xor_assoc]
    _ = crc32 P ^^^ crc32 P := by rw [hcontra]
    _ = 0 := Nat.xor_self _

theorem checkFrame_sendFrame (P : List Nat) :
    checkFrame (sendFrame P) = FrameStatus.good := by
  unfold checkFrame sendFrame
  rw [List.getLast?_concat, List.dropLast_concat]
  simp

/-- Claim C2: for every payload, computing the 32-bit CRC, appending it and
validating on receive yields GOOD; and flipping any single payload bit (word i,
bit b) before validation yields BAD. -/
theorem crc_roundtrip_single_bit (P : List Nat) (i b : Nat)
    (hi : i < P.length) (hb : b < 32) :
    checkFrame (sendFrame P) = FrameStatus.good ∧
    checkFrame (flipPayloadBit P i b ++ [crc32 P]) = FrameStatus.bad := by
  refine ⟨checkFrame_sendFrame P, ?_⟩
  unfold checkFrame
  rw [List.getLast?_concat, List.dropLast_concat]
  show (if crc32 (flipPayloadBit P i b) = crc32 P then FrameStatus.good
      else FrameStatus.bad) = FrameStatus.bad
  rw [if_neg (crc32_flip_ne P i b hi hb)]

/-- Witness for C2 on the payload [57005, 48879], flipping bit 7 of word 1. -/
theorem crc_roundtrip_single_bit_witness :
    checkFrame (sendFrame [57005, 48879]) = FrameStatus.good ∧
    checkFrame (flipPayloadBit [57005, 48879] 1 7 ++ [crc32 [57005, 48879]]) =
      FrameStatus.bad :=
  crc_roundtrip_single_bit [57005, 48879] 1 7 (by decide) (by decide)
